import Mathlib

/-!
Shallow embedding of the schema/KPI comparison engine of `src/app.py`
(Snowflake schema validation tool) together with proofs about it.

The embedding covers:
* `compare_table_differences` (app.py lines 95-125): the SQL full-outer-join
  symmetric difference of the two schemas' table-name sets, labelled and
  ordered by `ORDER BY difference, table_name`;
* `compare_column_differences` (app.py lines 127-201): the per-common-table
  column and data-type diff;
* `validate_kpis` (app.py lines 203-302): the KPI reconciler, including the
  `ORDER_DATA` trial check, the word-boundary case-insensitive substitution
  `re.sub(r'\bORDER_DATA\b', ..., flags=re.IGNORECASE)`, per-side error
  capture, and the numeric / string comparison policy.

Database effects are modelled by an explicit connection record `Conn`
carrying the two query channels the code uses (the KPI-definition fetch,
returning rows, and scalar execution, returning the first column of the
first row or `none` for an empty result).  Exceptions are modelled by
`Except String`.  Python numbers are modelled by `ℚ` (exact arithmetic;
`float('inf')` is an explicit constructor of the percent type).  SQL /
Python string ordering is the codepoint-lexicographic order on `String.data`
(`List Char`), which matches the source for the ASCII data involved.
-/

namespace Svat

/-! ## Dynamic values

A value captured from a query result cell.  Python's runtime check
`isinstance(v, (int, float))` corresponds to the `num` constructor; `none`
rows become Python `None` (`null`); everything else the comparison code
touches is a string.  (Python renders numbers inside `str(...)` with its own
float formatting; that rendering is abstracted by `toString` on `ℚ`, which
no proof below depends on.) -/
inductive Val where
  | num (q : ℚ)
  | str (s : String)
  | null
deriving DecidableEq

/-- Python `str(...)` as used by the fallback comparison `str(result_source)
== str(result_clone)` in app.py line 282.  `str(None) = "None"`. -/
def pyStr : Val → String
  | .num q => toString q
  | .str s => s
  | .null => "None"

/-- Whether a value passes `isinstance(v, (int, float))` (app.py line 278). -/
def Val.isNum : Val → Bool
  | .num _ => true
  | _ => false

/-- The `Diff %` column: `"N/A"`, a finite percentage, or `float('inf')`
(app.py lines 274 and 280). -/
inductive Pct where
  | na
  | val (q : ℚ)
  | inf
deriving DecidableEq

/-- KPI row status: `'✅ Match'`, `'⚠️ Mismatch'` or `'❌ Error'`. -/
inductive Status where
  | matched
  | mismatch
  | error
deriving DecidableEq

/-- Render of `Status` as the literal strings stored in the result rows. -/
def Status.render : Status → String
  | .matched => "✅ Match"
  | .mismatch => "⚠️ Mismatch"
  | .error => "❌ Error"

/-- Python `round(x, 2)` (round half to even) on exact rationals. -/
def roundHalfEven (x : ℚ) : ℤ :=
  let n := ⌊x⌋
  if x - n < 1/2 then n
  else if 1/2 < x - n then n + 1
  else if n % 2 = 0 then n else n + 1

/-- Round to two decimal places, Python `round(x, 2)`. -/
def roundPy2 (x : ℚ) : ℚ := (roundHalfEven (x * 100) : ℚ) / 100

/-- The string stored in the `Diff %` cell:
`f"{round(pct_diff, 2)}%" if isinstance(pct_diff, float) else pct_diff`
(app.py line 294).  Note `round(float('inf'), 2)` is `inf` and formats as
`"inf"`, hence `"inf%"`.  Finite floats are abstracted by `toString` on
`ℚ` (no proof depends on that rendering). -/
def displayPct : Pct → String
  | .na => "N/A"
  | .inf => "inf%"
  | .val q => toString (roundPy2 q) ++ "%"

/-! ## Metadata differ: table differences (app.py lines 95-125)

The SQL query full-outer-joins the two schemas' `information_schema.tables`
name sets, keeps the rows where one side is NULL, labels them with the CASE
expression, and sorts with `ORDER BY difference, table_name`.  Inputs are
the two lists of table names (one per schema; `information_schema` yields
each table name once per schema). -/

/-- CASE label for `s.table_name IS NULL` (the name is present only in the
clone schema).  The spec's abstract classification for a clone-only name is
`AddedInClone`. -/
def tableDroppedLabel : String := "Missing in source - Table Dropped"

/-- CASE label for `c.table_name IS NULL` (the name is present only in the
source schema).  The spec's abstract classification for a source-only name
is `DroppedFromSource`. -/
def tableAddedLabel : String := "Missing in clone - Table Added"

/-- The `ORDER BY difference, table_name` sort key on output rows
`(table_name, difference)`: ascending by the difference label, ties by
table name, both in codepoint-lexicographic string order. -/
def rowLe (x y : String × String) : Prop :=
  x.2.data < y.2.data ∨ (x.2.data = y.2.data ∧ x.1.data ≤ y.1.data)

instance : DecidableRel rowLe := fun x y => by
  unfold rowLe; infer_instance

/-- Embedding of `compare_table_differences` (app.py lines 95-125): rows
`(table_name, difference)` for the symmetric difference of the two name
sets — names only in `source` get `tableAddedLabel` (`c.table_name IS
NULL`), names only in `clone` get `tableDroppedLabel` (`s.table_name IS
NULL`) — sorted by `(difference, table_name)`. -/
def compare_table_differences (source clone : List String) :
    List (String × String) :=
  List.insertionSort rowLe
    ((source.filter (fun t => decide (t ∉ clone))).map
        (fun t => (t, tableAddedLabel)) ++
     (clone.filter (fun t => decide (t ∉ source))).map
        (fun t => (t, tableDroppedLabel)))

/-! ## Metadata differ: column differences (app.py lines 127-201) -/

/-- One row of the column-diff / type-diff output DataFrames. -/
structure ColumnDiffRow where
  table : String
  column : String
  difference : String
  sourceType : Option String
  cloneType : Option String
deriving DecidableEq

/-- The dict `{row[0]: row[1] for row in desc}` built from a `DESCRIBE
TABLE` result: lookup of the last binding for a key (later duplicate keys
shadow earlier ones, as in a Python dict build). -/
def dictOf (rows : List (String × String)) (c : String) : Option String :=
  rows.reverse.lookup c

/-- Key list of a `DESCRIBE TABLE` result. -/
def keysList (rows : List (String × String)) : List String :=
  rows.map Prod.fst

/-- Column comparison for one common table (app.py lines 147-190): for each
column in the union of the two key sets, emit an existence diff to the
first list (`if not source_exists` / `elif not clone_exists`) or, when the
column is present on both sides with different declared types, a type diff
to the second list. -/
def columnRowsForTable (table : String)
    (srcRows cloneRows : List (String × String)) :
    List ColumnDiffRow × List ColumnDiffRow :=
  let source_cols := dictOf srcRows
  let clone_cols := dictOf cloneRows
  let all_columns := (keysList srcRows ++ keysList cloneRows).dedup
  (all_columns.filterMap (fun col =>
      if source_cols col = none then
        some ⟨table, col, "Missing in source - Column Dropped",
              none, clone_cols col⟩
      else if clone_cols col = none then
        some ⟨table, col, "Missing in clone - Column Added",
              source_cols col, none⟩
      else none),
   all_columns.filterMap (fun col =>
      match source_cols col, clone_cols col with
      | some st, some ct =>
          if st ≠ ct then
            some ⟨table, col, "Data Type Changed", some st, some ct⟩
          else none
      | _, _ => none))

/-- The common-tables query (app.py lines 132-142): names present in both
schemas. -/
def common_tables (sourceTables cloneTables : List String) : List String :=
  sourceTables.filter (fun t => decide (t ∈ cloneTables))

/-- Embedding of `compare_column_differences` (app.py lines 127-201).
Inputs: the two schemas' table-name lists and, per table name, the
`DESCRIBE TABLE` result (column name, declared type) for each side.
Output: the column-diff list and the data-type-diff list. -/
def compare_column_differences (sourceTables cloneTables : List String)
    (sourceDesc cloneDesc : String → List (String × String)) :
    List ColumnDiffRow × List ColumnDiffRow :=
  let common := common_tables sourceTables cloneTables
  (common.flatMap
      (fun t => (columnRowsForTable t (sourceDesc t) (cloneDesc t)).1),
   common.flatMap
      (fun t => (columnRowsForTable t (sourceDesc t) (cloneDesc t)).2))

/-! ## KPI reconciler: the `ORDER_DATA` substitution (app.py lines 259, 266)

`re.sub(r'\bORDER_DATA\b', f'{database}.{schema}.ORDER_DATA', kpi_sql,
flags=re.IGNORECASE)`.  Every character of the pattern `ORDER_DATA` is a
word character, so a `\b...\b` match is exactly a maximal run of word
characters whose (ASCII) lowercase form equals `order_data`; `re.sub`
replaces each such run and leaves everything else unchanged.  The embedding
scans the character list accumulating the current word run and flushes each
maximal run, substituting it when it matches the token case-insensitively.
(Word characters and case folding are the ASCII fragment of Python's `\w` /
`IGNORECASE`; the pattern itself is pure ASCII.) -/

/-- ASCII word character, the `\w` class restricted to ASCII:
`[A-Za-z0-9_]`. -/
def isWordChar (c : Char) : Bool :=
  decide (('A' ≤ c ∧ c ≤ 'Z') ∨ ('a' ≤ c ∧ c ≤ 'z') ∨
          ('0' ≤ c ∧ c ≤ '9') ∨ c = '_')

/-- ASCII lower-casing, as used by case-insensitive matching of the ASCII
pattern `ORDER_DATA`. -/
def asciiLower (c : Char) : Char :=
  if 'A' ≤ c ∧ c ≤ 'Z' then Char.ofNat (c.toNat + 32) else c

/-- The lower-cased pattern. -/
def orderDataToken : List Char := "order_data".data

/-- Lower-case a character run. -/
def lowerRun (run : List Char) : List Char := run.map asciiLower

/-- Flush a maximal word run: substitute it if it matches `ORDER_DATA`
case-insensitively, otherwise emit it unchanged. -/
def flushRun (repl run : List Char) : List Char :=
  if lowerRun run = orderDataToken then repl else run

/-- Scanner for the substitution: `acc` is the reversed word run read so
far; a non-word character (or the end of input) terminates the run. -/
def substAux (repl : List Char) (acc : List Char) : List Char → List Char
  | [] => flushRun repl acc.reverse
  | c :: cs =>
    if isWordChar c then substAux repl (c :: acc) cs
    else flushRun repl acc.reverse ++ c :: substAux repl [] cs

/-- The replacement text `f'{database}.{schema}.ORDER_DATA'`. -/
def qualifiedOrderData (database schema : String) : String :=
  database ++ "." ++ schema ++ ".ORDER_DATA"

/-- Embedding of the template rewrite (app.py lines 259 and 266): replace
every whole-word case-insensitive occurrence of `ORDER_DATA` in `sql` by
the fully qualified name for the given side. -/
def substOrderData (database schema sql : String) : String :=
  ⟨substAux (qualifiedOrderData database schema).data [] sql.data⟩

/-! ## KPI reconciler: `validate_kpis` (app.py lines 203-302) -/

/-- The database session, reduced to the two query channels `validate_kpis`
uses: `fetchKpis` models `cursor.execute(kpi_query); cursor.fetchall()`
returning `(KPI_ID, KPI_NAME, KPI_VALUE)` rows, and `run` models
`cursor.execute(sql)` followed by
`cursor.fetchone()[0] if cursor.rowcount > 0 else None`
(`Except.ok none` = the query succeeded with zero rows).  `Except.error`
carries the exception message. -/
structure Conn where
  fetchKpis : String → Except String (List (Int × String × String))
  run : String → Except String (Option Val)

/-- The KPI-definition fetch query text (app.py lines 210-214, whitespace
normalised). -/
def kpiFetchQuery (database source_schema : String)
    (selected_kpis : List String) : String :=
  "SELECT KPI_ID, KPI_NAME, KPI_VALUE FROM " ++ database ++ "." ++
    source_schema ++ ".ORDER_KPIS WHERE KPI_NAME IN (" ++
    String.intercalate "," (selected_kpis.map (fun k => "'" ++ k ++ "'")) ++
    ")"

/-- The trial query probing for the `ORDER_DATA` table
(app.py lines 223 and 229). -/
def trialQuery (database schema : String) : String :=
  "SELECT 1 FROM " ++ database ++ "." ++ schema ++ ".ORDER_DATA LIMIT 1"

/-- Did a statement execute without raising?  (The trial check treats any
execution error as "table absent".) -/
def execOk {α : Type} : Except String α → Bool
  | .ok _ => true
  | .error _ => false

/-- Capture one side's query outcome as a value (app.py lines 257-270):
an exception becomes the string `"QUERY_ERROR: " ++ e` for that side, an
empty result becomes `null`, otherwise the first cell of the first row. -/
def capture : Except String (Option Val) → Val
  | .error e => .str ("QUERY_ERROR: " ++ e)
  | .ok none => .null
  | .ok (some v) => v

/-- The comparison policy (app.py lines 272-285): both sides numeric →
exact difference, percent (`inf` when the source value is 0), match iff the
difference is 0; otherwise fall back to equality of the `str(...)` forms.
Returns `(Difference, Diff %, Status)`; the `Difference` cell is displayed
rounded to two decimals (`round(diff, 2)`), the computed value kept here
drives the status test `diff == 0`. -/
def compareVals (s c : Val) : Option ℚ × Pct × Status :=
  match s, c with
  | .num a, .num b =>
    (some (a - b),
     if a ≠ 0 then Pct.val ((a - b) / a * 100) else Pct.inf,
     if a - b = 0 then Status.matched else Status.mismatch)
  | s, c =>
    (none, Pct.na,
     if pyStr s = pyStr c then Status.matched else Status.mismatch)

/-- One output row of `validate_kpis` (the dict appended to `results`).
`difference` and `diffPct` are the computed values; the DataFrame cells
show `roundPy2` of the difference and `displayPct diffPct`. -/
structure KpiRow where
  kpiId : Int
  kpiName : String
  query : String
  sourceValue : Val
  cloneValue : Val
  difference : Option ℚ
  diffPct : Pct
  status : Status
deriving DecidableEq

/-- Build the result row for one KPI from the two captured values
(app.py lines 287-296). -/
def mkKpiRow (k : Int × String × String) (s c : Val) : KpiRow :=
  let r := compareVals s c
  ⟨k.1, k.2.1, k.2.2, s, c, r.1, r.2.1, r.2.2⟩

/-- Evaluate one KPI in the normal path (app.py lines 256-296): substitute
the table name for each side, execute, capture each side's outcome
independently, and compare. -/
def evalKpi (run : String → Except String (Option Val))
    (database source_schema target_schema : String)
    (k : Int × String × String) : KpiRow :=
  mkKpiRow k
    (capture (run (substOrderData database source_schema k.2.2)))
    (capture (run (substOrderData database target_schema k.2.2)))

/-- The short-circuit row when `ORDER_DATA` is missing
(app.py lines 243-253). -/
def errorRow (msg : String) (k : Int × String × String) : KpiRow :=
  ⟨k.1, k.2.1, k.2.2, .str ("ERROR: " ++ msg), .str ("ERROR: " ++ msg),
   none, .na, .error⟩

/-- The error message naming which side(s) lack `ORDER_DATA`
(app.py lines 235-241); only evaluated when at least one side lacks it. -/
def missingMsg (sourceHas targetHas : Bool) : String :=
  "ORDER_DATA table missing in " ++
    (if !sourceHas && !targetHas then "both schemas"
     else if !sourceHas then "source schema"
     else "target schema")

/-- The outcome of `validate_kpis`: the result rows, the returned status
message, and the sequence of SQL texts passed to `cursor.execute`, in
order (the observable effect trace of the call). -/
structure KpiOutcome where
  rows : List KpiRow
  message : String
  executed : List String
deriving DecidableEq

/-- Embedding of `validate_kpis` (app.py lines 203-302).  Fetch the
selected KPI definitions; bail out on a fetch failure (the enclosing
`except`) or an empty fetch; probe both schemas for `ORDER_DATA`
(any execution error counts as absent); if either side lacks it, emit one
`Error` row per KPI definition and stop without executing any KPI SQL;
otherwise evaluate each KPI against both sides in fetch order. -/
def validate_kpis (conn : Conn)
    (database source_schema target_schema : String)
    (selected_kpis : List String) : KpiOutcome :=
  let q := kpiFetchQuery database source_schema selected_kpis
  match conn.fetchKpis q with
  | .error e => ⟨[], "❌ KPI validation failed: " ++ e, [q]⟩
  | .ok [] => ⟨[], "⚠️ No matching KPIs found in ORDER_KPIS table.", [q]⟩
  | .ok kpis =>
    let tS := trialQuery database source_schema
    let tT := trialQuery database target_schema
    let sourceHas := execOk (conn.run tS)
    let targetHas := execOk (conn.run tT)
    if sourceHas && targetHas then
      ⟨kpis.foldl (fun acc k =>
          acc ++ [evalKpi conn.run database source_schema target_schema k])
          [],
       "✅ KPI validation completed",
       q :: tS :: tT :: kpis.foldl (fun acc k =>
          acc ++ [substOrderData database source_schema k.2.2,
                  substOrderData database target_schema k.2.2]) []⟩
    else
      ⟨kpis.foldl (fun acc k =>
          acc ++ [errorRow (missingMsg sourceHas targetHas) k]) [],
       "❌ Validation failed - missing ORDER_DATA table",
       [q, tS, tT]⟩

/-! ## Concrete connections used by witnesses -/

/-- A fixed KPI template used by the concrete witnesses below. -/
def kpiSql0 : String := "SELECT COUNT(*) FROM ORDER_DATA"

/-- A connection whose source-side KPI query returns `a`, whose clone-side
KPI query returns `b`, and whose every other statement (the fetch returns
one KPI definition) succeeds. -/
def numConn (a b : ℚ) : Conn :=
  ⟨fun _ => .ok [(1, "K", kpiSql0)],
   fun q =>
     if q = substOrderData "DB" "S1" kpiSql0 then .ok (some (.num a))
     else if q = substOrderData "DB" "S2" kpiSql0 then .ok (some (.num b))
     else .ok (some (.num 1))⟩

/-- A connection on which the clone-side trial probe for `ORDER_DATA`
raises and everything else succeeds. -/
def missConn : Conn :=
  ⟨fun _ => .ok [(1, "K", kpiSql0)],
   fun q =>
     if q = trialQuery "DB" "S2" then .error "Object does not exist"
     else .ok (some (.num 1))⟩

/-- A connection on which the source-side KPI query raises and everything
else succeeds. -/
def errSideConn : Conn :=
  ⟨fun _ => .ok [(1, "K", kpiSql0)],
   fun q =>
     if q = substOrderData "DB" "S1" kpiSql0 then .error "division by zero"
     else .ok (some (.num 7))⟩

/-- A connection whose KPI-definition fetch returns the rows in the
opposite of the caller's selection order. -/
def outOfOrderConn : Conn :=
  ⟨fun _ => .ok [(2, "B", kpiSql0), (1, "A", kpiSql0)],
   fun _ => .ok (some (.num 1))⟩

/-- A connection on which both KPI queries return zero rows and everything
else succeeds. -/
def nullConn : Conn :=
  ⟨fun _ => .ok [(1, "K", kpiSql0)],
   fun q =>
     if q = substOrderData "DB" "S1" kpiSql0 then .ok none
     else if q = substOrderData "DB" "S2" kpiSql0 then .ok none
     else .ok (some (.num 1))⟩

/-! ## Order facts for the table-diff sort key -/

instance : IsTotal (String × String) rowLe := by
  constructor
  intro x y
  unfold rowLe
  rcases lt_trichotomy x.2.data y.2.data with h | h | h
  · exact Or.inl (Or.inl h)
  · rcases le_total x.1.data y.1.data with h2 | h2
    · exact Or.inl (Or.inr ⟨h, h2⟩)
    · exact Or.inr (Or.inr ⟨h.symm, h2⟩)
  · exact Or.inr (Or.inl h)

instance : IsTrans (String × String) rowLe := by
  constructor
  intro x y z hxy hyz
  unfold rowLe at *
  rcases hxy with h1 | ⟨e1, l1⟩
  · rcases hyz with h2 | ⟨e2, l2⟩
    · exact Or.inl (h1.trans h2)
    · exact Or.inl (e2 ▸ h1)
  · rcases hyz with h2 | ⟨e2, l2⟩
    · exact Or.inl (e1 ▸ h2)
    · exact Or.inr ⟨e1.trans e2, l1.trans l2⟩

/-- Helper: the left fold appending one image per element is `List.map`. -/
theorem foldl_append_singleton {α β : Type} (f : α → β) (l : List α) :
    ∀ acc : List β, l.foldl (fun acc k => acc ++ [f k]) acc = acc ++ l.map f := by
  induction l with
  | nil => intro acc; simp
  | cons a l ih => intro acc; simp [ih]

/-- C2.  `compare_table_differences` outputs exactly the symmetric
difference of the two table-name sets: a source-only name gets the label
the code emits for `c.table_name IS NULL` (`tableAddedLabel`; the spec's
abstract classification `DroppedFromSource` — the clone no longer has the
table), a clone-only name gets the label for `s.table_name IS NULL`
(`tableDroppedLabel`; the spec's `AddedInClone`), names present in both are
excluded entirely, the row count is `|source ∪ clone| − |source ∩ clone|`,
and the rows are sorted ascending by `(classification, table_name)` (the
`ORDER BY difference, table_name` key). -/
theorem table_diff_symmetric_difference_c2
    (source clone : List String) (hs : source.Nodup) (hc : clone.Nodup) :
    (∀ t, (t, tableAddedLabel) ∈ compare_table_differences source clone ↔
        (t ∈ source ∧ t ∉ clone)) ∧
    (∀ t, (t, tableDroppedLabel) ∈ compare_table_differences source clone ↔
        (t ∈ clone ∧ t ∉ source)) ∧
    (∀ t d, (t, d) ∈ compare_table_differences source clone →
        (d = tableAddedLabel ∨ d = tableDroppedLabel) ∧
          ¬(t ∈ source ∧ t ∈ clone)) ∧
    (compare_table_differences source clone).length =
      (source.toFinset ∪ clone.toFinset).card -
        (source.toFinset ∩ clone.toFinset).card ∧
    List.Sorted rowLe (compare_table_differences source clone) := by
  have hlabel : tableAddedLabel ≠ tableDroppedLabel := by decide
  have hmem : ∀ x, x ∈ compare_table_differences source clone ↔
      x ∈ (source.filter (fun t => decide (t ∉ clone))).map
            (fun t => (t, tableAddedLabel)) ++
          (clone.filter (fun t => decide (t ∉ source))).map
            (fun t => (t, tableDroppedLabel)) := by
    intro x
    exact (List.perm_insertionSort rowLe _).mem_iff
  refine ⟨?_, ?_, ?_, ?_, ?_⟩
  · intro t
    rw [hmem]
    simp only [List.mem_append, List.mem_map, List.mem_filter,
      decide_eq_true_eq, Prod.mk.injEq]
    constructor
    · rintro (⟨a, ⟨ha1, ha2⟩, rfl, _⟩ | ⟨a, _, _, hbad⟩)
      · exact ⟨ha1, ha2⟩
      · exact absurd hbad.symm hlabel
    · rintro ⟨h1, h2⟩
      exact Or.inl ⟨t, ⟨h1, h2⟩, rfl, trivial⟩
  · intro t
    rw [hmem]
    simp only [List.mem_append, List.mem_map, List.mem_filter,
      decide_eq_true_eq, Prod.mk.injEq]
    constructor
    · rintro (⟨a, _, _, hbad⟩ | ⟨a, ⟨ha1, ha2⟩, rfl, _⟩)
      · exact absurd hbad hlabel
      · exact ⟨ha1, ha2⟩
    · rintro ⟨h1, h2⟩
      exact Or.inr ⟨t, ⟨h1, h2⟩, rfl, trivial⟩
  · intro t d h
    rw [hmem] at h
    simp only [List.mem_append, List.mem_map, List.mem_filter,
      decide_eq_true_eq, Prod.mk.injEq] at h
    rcases h with ⟨a, ⟨ha1, ha2⟩, rfl, rfl⟩ | ⟨a, ⟨ha1, ha2⟩, rfl, rfl⟩
    · exact ⟨Or.inl rfl, fun hb => ha2 hb.2⟩
    · exact ⟨Or.inr rfl, fun hb => ha2 hb.1⟩
  · have hlen : (compare_table_differences source clone).length =
        (source.filter (fun t => decide (t ∉ clone))).length +
        (clone.filter (fun t => decide (t ∉ source))).length := by
      unfold compare_table_differences
      rw [(List.perm_insertionSort rowLe _).length_eq]
      simp
    have hcard1 : (source.filter (fun t => decide (t ∉ clone))).length =
        (source.toFinset \ clone.toFinset).card := by
      rw [← List.toFinset_card_of_nodup (hs.filter _)]
      congr 1
      ext a
      simp [List.mem_toFinset, List.mem_filter, Finset.mem_sdiff]
    have hcard2 : (clone.filter (fun t => decide (t ∉ source))).length =
        (clone.toFinset \ source.toFinset).card := by
      rw [← List.toFinset_card_of_nodup (hc.filter _)]
      congr 1
      ext a
      simp [List.mem_toFinset, List.mem_filter, Finset.mem_sdiff]
    rw [hlen, hcard1, hcard2]
    have h1 := Finset.card_inter_add_card_sdiff source.toFinset clone.toFinset
    have h2 := Finset.card_inter_add_card_sdiff clone.toFinset source.toFinset
    have h3 := Finset.card_union_add_card_inter source.toFinset clone.toFinset
    have h4 : (clone.toFinset ∩ source.toFinset).card =
        (source.toFinset ∩ clone.toFinset).card := by
      rw [Finset.inter_comm]
    omega
  · exact List.sorted_insertionSort rowLe _

/-- Witness for C2 at a concrete pair of table-name lists. -/
theorem table_diff_symmetric_difference_c2_witness :
    (compare_table_differences ["A", "B", "C"] ["B", "D"]).length =
      ((["A", "B", "C"] : List String).toFinset ∪
        (["B", "D"] : List String).toFinset).card -
      ((["A", "B", "C"] : List String).toFinset ∩
        (["B", "D"] : List String).toFinset).card :=
  (table_diff_symmetric_difference_c2 ["A", "B", "C"] ["B", "D"]
    (by decide) (by decide)).2.2.2.1

/-! ## Column-diff lemmas (C5, C6) -/

theorem lookup_eq_none_iff (l : List (String × String)) (c : String) :
    l.lookup c = none ↔ c ∉ l.map Prod.fst := by
  induction l with
  | nil => simp [List.lookup]
  | cons a t ih =>
    obtain ⟨k, v⟩ := a
    by_cases h : c = k
    · subst h
      simp [List.lookup]
    · simp only [List.lookup, beq_eq_false_iff_ne.mpr h, List.map_cons,
        List.mem_cons, not_or]
      rw [ih]
      simp [h]

theorem dictOf_eq_none_iff (rows : List (String × String)) (c : String) :
    dictOf rows c = none ↔ c ∉ keysList rows := by
  unfold dictOf keysList
  rw [lookup_eq_none_iff]
  simp

/-- Membership characterisation for the existence-diff list of one table:
every row records the table it came from, and exists because the column is
missing from one of the two sides. -/
theorem mem_columnRows_fst {t : String} {srcRows cloneRows : List (String × String)}
    {r : ColumnDiffRow} (h : r ∈ (columnRowsForTable t srcRows cloneRows).1) :
    r.table = t ∧
      (dictOf srcRows r.column = none ∨ dictOf cloneRows r.column = none) := by
  unfold columnRowsForTable at h
  simp only [List.mem_filterMap] at h
  obtain ⟨col, _, hf⟩ := h
  by_cases h1 : dictOf srcRows col = none
  · rw [if_pos h1] at hf
    obtain rfl := Option.some.inj hf
    exact ⟨rfl, Or.inl h1⟩
  · rw [if_neg h1] at hf
    by_cases h2 : dictOf cloneRows col = none
    · rw [if_pos h2] at hf
      obtain rfl := Option.some.inj hf
      exact ⟨rfl, Or.inr h2⟩
    · rw [if_neg h2] at hf
      exact absurd hf (by simp)

/-- Membership characterisation for the type-diff list of one table: every
row records its table, and exists because the column is present on both
sides with distinct declared types (recorded verbatim in the row). -/
theorem mem_columnRows_snd {t : String} {srcRows cloneRows : List (String × String)}
    {r : ColumnDiffRow} (h : r ∈ (columnRowsForTable t srcRows cloneRows).2) :
    r.table = t ∧ ∃ st ct, dictOf srcRows r.column = some st ∧
      dictOf cloneRows r.column = some ct ∧ st ≠ ct ∧
      r.sourceType = some st ∧ r.cloneType = some ct ∧
      r.difference = "Data Type Changed" := by
  unfold columnRowsForTable at h
  simp only [List.mem_filterMap] at h
  obtain ⟨col, _, hf⟩ := h
  split at hf
  · rename_i st ct h1 h2
    split at hf
    · rename_i hne
      obtain rfl := Option.some.inj hf
      exact ⟨rfl, st, ct, h1, h2, by simpa using hne, rfl, rfl, rfl⟩
    · exact absurd hf (by simp)
  · exact absurd hf (by simp)

/-- C5.  For every table common to both schemas and every column in the
union of its column names: a column absent from the source is emitted in
the column-diff list with the code's `'Missing in source - Column Dropped'`
difference value — the classification the spec calls `ColumnAdded`
("added in clone", seen from the source's point of view) — and a column
present in the source but absent from the clone is emitted with
`'Missing in clone - Column Added'` — the spec's `ColumnDropped`. -/
theorem column_diff_classification_c5
    (sourceTables cloneTables : List String)
    (sourceDesc cloneDesc : String → List (String × String))
    (t col : String) (hts : t ∈ sourceTables) (htc : t ∈ cloneTables)
    (hcol : col ∈ keysList (sourceDesc t) ∨ col ∈ keysList (cloneDesc t)) :
    (dictOf (sourceDesc t) col = none →
      (⟨t, col, "Missing in source - Column Dropped", none,
          dictOf (cloneDesc t) col⟩ : ColumnDiffRow) ∈
        (compare_column_differences sourceTables cloneTables
          sourceDesc cloneDesc).1) ∧
    (dictOf (sourceDesc t) col ≠ none → dictOf (cloneDesc t) col = none →
      (⟨t, col, "Missing in clone - Column Added",
          dictOf (sourceDesc t) col, none⟩ : ColumnDiffRow) ∈
        (compare_column_differences sourceTables cloneTables
          sourceDesc cloneDesc).1) := by
  have htcommon : t ∈ common_tables sourceTables cloneTables := by
    unfold common_tables
    simp [List.mem_filter, hts, htc]
  have hcols : col ∈ (keysList (sourceDesc t) ++ keysList (cloneDesc t)).dedup := by
    rw [List.mem_dedup, List.mem_append]
    exact hcol
  constructor
  · intro h1
    unfold compare_column_differences
    simp only [List.mem_flatMap]
    refine ⟨t, htcommon, ?_⟩
    unfold columnRowsForTable
    simp only [List.mem_filterMap]
    exact ⟨col, hcols, by rw [if_pos h1]⟩
  · intro h1 h2
    unfold compare_column_differences
    simp only [List.mem_flatMap]
    refine ⟨t, htcommon, ?_⟩
    unfold columnRowsForTable
    simp only [List.mem_filterMap]
    exact ⟨col, hcols, by rw [if_neg h1, if_pos h2]⟩

/-- Witness for C5: a column present only in the clone of the one common
table is reported in the column-diff list. -/
theorem column_diff_classification_c5_witness :
    (⟨"T", "C2", "Missing in source - Column Dropped", none, some "DATE"⟩ :
        ColumnDiffRow) ∈
      (compare_column_differences ["T"] ["T"]
        (fun _ => [("C1", "INT")]) (fun _ => [("C2", "DATE")])).1 :=
  (column_diff_classification_c5 ["T"] ["T"]
    (fun _ => [("C1", "INT")]) (fun _ => [("C2", "DATE")]) "T" "C2"
    (by decide) (by decide) (Or.inr (by decide))).1 rfl

/-- C6.  A column present in both sides of a common table with differing
declared types (case-sensitive exact string comparison) is emitted to the
separate type-difference list with the `'Data Type Changed'` value (the
spec's `TypeChanged`), and no `(table, column)` pair ever appears in both
the column-diff list and the type-diff list. -/
theorem column_type_partition_c6
    (sourceTables cloneTables : List String)
    (sourceDesc cloneDesc : String → List (String × String)) :
    (∀ t col st ct, t ∈ sourceTables → t ∈ cloneTables →
      dictOf (sourceDesc t) col = some st →
      dictOf (cloneDesc t) col = some ct → st ≠ ct →
      (⟨t, col, "Data Type Changed", some st, some ct⟩ : ColumnDiffRow) ∈
        (compare_column_differences sourceTables cloneTables
          sourceDesc cloneDesc).2) ∧
    (∀ t col, ¬((∃ r ∈ (compare_column_differences sourceTables cloneTables
            sourceDesc cloneDesc).1, r.table = t ∧ r.column = col) ∧
        (∃ r ∈ (compare_column_differences sourceTables cloneTables
            sourceDesc cloneDesc).2, r.table = t ∧ r.column = col))) := by
  constructor
  · intro t col st ct hts htc h1 h2 hne
    have htcommon : t ∈ common_tables sourceTables cloneTables := by
      unfold common_tables
      simp [List.mem_filter, hts, htc]
    have hcols : col ∈ (keysList (sourceDesc t) ++ keysList (cloneDesc t)).dedup := by
      rw [List.mem_dedup, List.mem_append]
      left
      have := (dictOf_eq_none_iff (sourceDesc t) col).not
      simp only [h1] at this
      exact not_not.mp (this.mp (by simp))
    unfold compare_column_differences
    simp only [List.mem_flatMap]
    refine ⟨t, htcommon, ?_⟩
    unfold columnRowsForTable
    simp only [List.mem_filterMap]
    refine ⟨col, hcols, ?_⟩
    rw [h1, h2]
    simp [hne]
  · rintro t col ⟨⟨r1, hr1, hrt1, hrc1⟩, ⟨r2, hr2, hrt2, hrc2⟩⟩
    unfold compare_column_differences at hr1 hr2
    simp only [List.mem_flatMap] at hr1 hr2
    obtain ⟨t1, ht1, hm1⟩ := hr1
    obtain ⟨t2, ht2, hm2⟩ := hr2
    obtain ⟨he1, hcase⟩ := mem_columnRows_fst hm1
    obtain ⟨he2, st, ct, hs2, hc2, -, -⟩ := mem_columnRows_snd hm2
    have e1 : t1 = t := by rw [← he1, hrt1]
    have e2 : t2 = t := by rw [← he2, hrt2]
    subst e1
    subst e2
    rw [hrc1] at hcase
    rw [hrc2] at hs2 hc2
    rcases hcase with h | h
    · rw [h] at hs2; exact Option.noConfusion hs2
    · rw [h] at hc2; exact Option.noConfusion hc2

/-- Witness for C6: a type change on the one common table is reported in
the type-diff list. -/
theorem column_type_partition_c6_witness :
    (⟨"T", "C", "Data Type Changed", some "INT", some "TEXT"⟩ :
        ColumnDiffRow) ∈
      (compare_column_differences ["T"] ["T"]
        (fun _ => [("C", "INT")]) (fun _ => [("C", "TEXT")])).2 :=
  (column_type_partition_c6 ["T"] ["T"]
    (fun _ => [("C", "INT")]) (fun _ => [("C", "TEXT")])).1
    "T" "C" "INT" "TEXT" (by decide) (by decide) rfl rfl (by decide)

/-! ## Substitution lemmas (C4) -/

theorem flushRun_nil (repl : List Char) : flushRun repl [] = [] := by
  unfold flushRun
  rw [if_neg (by decide)]

/-- Every character of a run that matches `ORDER_DATA` case-insensitively
is a word character. -/
theorem isWordChar_of_lower {occ : List Char}
    (h : lowerRun occ = orderDataToken) : ∀ c ∈ occ, isWordChar c = true := by
  intro c hc
  have htoken : ∀ d ∈ orderDataToken, isWordChar d = true := by decide
  have hlow : asciiLower c ∈ orderDataToken := by
    rw [← h]
    exact List.mem_map_of_mem asciiLower hc
  have hword := htoken _ hlow
  unfold asciiLower at hword
  by_cases hcase : 'A' ≤ c ∧ c ≤ 'Z'
  · unfold isWordChar
    simp only [decide_eq_true_eq]
    exact Or.inl hcase
  · rwa [if_neg hcase] at hword

/-- Scanning a word run accumulates it (reversed) without emitting. -/
theorem substAux_word_run (repl : List Char) :
    ∀ xs : List Char, (∀ c ∈ xs, isWordChar c = true) →
      ∀ (acc rest : List Char),
        substAux repl acc (xs ++ rest) = substAux repl (xs.reverse ++ acc) rest := by
  intro xs
  induction xs with
  | nil => intro _ acc rest; simp
  | cons c xs ih =>
    intro hw acc rest
    have hc : isWordChar c = true := hw c (List.mem_cons_self c xs)
    rw [List.cons_append]
    simp only [substAux, hc, if_true]
    rw [ih (fun d hd => hw d (List.mem_cons_of_mem c hd))]
    simp

/-- A non-word character splits the scan: everything after it is processed
independently. -/
theorem substAux_split (repl : List Char) (c : Char)
    (hc : isWordChar c = false) :
    ∀ (xs : List Char) (acc ys : List Char),
      substAux repl acc (xs ++ c :: ys) =
        substAux repl acc (xs ++ [c]) ++ substAux repl [] ys := by
  intro xs
  induction xs with
  | nil =>
    intro acc ys
    simp only [List.nil_append]
    simp only [substAux, hc, if_false, Bool.false_eq_true, flushRun_nil]
    simp [flushRun_nil]
  | cons d xs ih =>
    intro acc ys
    rw [List.cons_append, List.cons_append]
    simp only [substAux]
    by_cases hd : isWordChar d = true
    · rw [if_pos hd, if_pos hd, ih]
    · rw [if_neg hd, if_neg hd, ih]
      simp

/-- Processing a maximal word run followed by a boundary flushes it. -/
theorem substAux_run_append (repl run rest : List Char)
    (hw : ∀ c ∈ run, isWordChar c = true)
    (hrest : ∀ c, rest.head? = some c → isWordChar c = false) :
    substAux repl [] (run ++ rest) =
      flushRun repl run ++ substAux repl [] rest := by
  rw [substAux_word_run repl run hw [] rest]
  cases rest with
  | nil =>
    simp only [substAux, flushRun_nil]
    simp [flushRun_nil]
  | cons d rest =>
    have hd : isWordChar d = false := hrest d rfl
    simp only [substAux, hd, if_false, Bool.false_eq_true, flushRun_nil]
    simp [flushRun_nil]

/-- Splitting the scan after a trailing non-word character of a prefix. -/
theorem substAux_append_of_last (repl pre rest : List Char)
    (h : ∀ c, pre.getLast? = some c → isWordChar c = false) :
    substAux repl [] (pre ++ rest) =
      substAux repl [] pre ++ substAux repl [] rest := by
  rcases List.eq_nil_or_concat pre with rfl | ⟨l, c, rfl⟩
  · simp only [List.nil_append, substAux, flushRun_nil]
    simp [flushRun_nil]
  · have hc : isWordChar c = false := h c (by simp)
    rw [List.concat_eq_append, List.append_assoc, List.singleton_append,
      substAux_split repl c hc l]

/-- C4.  The KPI template rewrite replaces every whole-word,
case-insensitive occurrence of the token `ORDER_DATA` by the fully
qualified `<database>.<schema>.ORDER_DATA` for the given side, and leaves
a whole word-character run that is not exactly the token — such as the
longer identifiers `MY_ORDER_DATA_V2` and `MY_ORDER_DATA2` — unchanged.
An "occurrence" is delimited by `\b`: the adjacent characters (if any) are
non-word characters. -/
theorem kpi_substitution_c4 (database schema : String) :
    (∀ occ pre post : List Char, lowerRun occ = orderDataToken →
      (∀ c, pre.getLast? = some c → isWordChar c = false) →
      (∀ c, post.head? = some c → isWordChar c = false) →
      substOrderData database schema ⟨pre ++ occ ++ post⟩ =
        ⟨substAux (qualifiedOrderData database schema).data [] pre ++
          (qualifiedOrderData database schema).data ++
          substAux (qualifiedOrderData database schema).data [] post⟩) ∧
    (∀ run pre post : List Char, (∀ c ∈ run, isWordChar c = true) →
      lowerRun run ≠ orderDataToken →
      (∀ c, pre.getLast? = some c → isWordChar c = false) →
      (∀ c, post.head? = some c → isWordChar c = false) →
      substOrderData database schema ⟨pre ++ run ++ post⟩ =
        ⟨substAux (qualifiedOrderData database schema).data [] pre ++
          run ++
          substAux (qualifiedOrderData database schema).data [] post⟩) ∧
    substOrderData database schema "SELECT * FROM MY_ORDER_DATA_V2" =
      "SELECT * FROM MY_ORDER_DATA_V2" ∧
    substOrderData database schema "SELECT * FROM MY_ORDER_DATA2" =
      "SELECT * FROM MY_ORDER_DATA2" := by
  refine ⟨?_, ?_, ?_, ?_⟩
  · intro occ pre post hocc hpre hpost
    unfold substOrderData
    congr 1
    rw [List.append_assoc,
      substAux_append_of_last _ pre (occ ++ post) hpre,
      substAux_run_append _ occ post (isWordChar_of_lower hocc) hpost]
    unfold flushRun
    rw [if_pos hocc]
    simp
  · intro run pre post hw hne hpre hpost
    unfold substOrderData
    congr 1
    rw [List.append_assoc,
      substAux_append_of_last _ pre (run ++ post) hpre,
      substAux_run_append _ run post hw hpost]
    unfold flushRun
    rw [if_neg hne]
    simp
  · rfl
  · rfl

/-- Witness for C4 at a concrete template, database and schema. -/
theorem kpi_substitution_c4_witness :
    substOrderData "DB1" "SC1" "SELECT COUNT(*) FROM order_data WHERE A=1" =
      "SELECT COUNT(*) FROM DB1.SC1.ORDER_DATA WHERE A=1" := by
  have h := (kpi_substitution_c4 "DB1" "SC1").1 "order_data".data
    "SELECT COUNT(*) FROM ".data " WHERE A=1".data
    (by decide) (by decide) (by decide)
  have hdata : ("SELECT COUNT(*) FROM ".data ++ "order_data".data ++
      " WHERE A=1".data) = "SELECT COUNT(*) FROM order_data WHERE A=1".data := by
    decide
  rw [hdata] at h
  rw [show ("SELECT COUNT(*) FROM order_data WHERE A=1" : String) =
      ⟨"SELECT COUNT(*) FROM order_data WHERE A=1".data⟩ from rfl] at h
  rw [h]
  decide

/-! ## KPI reconciler lemmas -/

/-- In the normal path (fetch succeeded, both trial probes succeeded) the
rows are the per-KPI evaluations, in fetch order. -/
theorem validate_kpis_rows_ok (conn : Conn) (db ss ts : String)
    (sel : List String) (kpis : List (Int × String × String))
    (hf : conn.fetchKpis (kpiFetchQuery db ss sel) = Except.ok kpis)
    (hs : execOk (conn.run (trialQuery db ss)) = true)
    (ht : execOk (conn.run (trialQuery db ts)) = true) :
    (validate_kpis conn db ss ts sel).rows =
      kpis.map (evalKpi conn.run db ss ts) := by
  simp only [validate_kpis, hf]
  cases kpis with
  | nil => rfl
  | cons k ks =>
    simp only [hs, ht, Bool.and_self, if_true]
    rw [foldl_append_singleton]
    simp

/-- In the short-circuit path (either trial probe failed) the rows are one
error row per fetched KPI, and only the fetch and the two trial statements
were executed. -/
theorem validate_kpis_shortcircuit (conn : Conn) (db ss ts : String)
    (sel : List String) (kpis : List (Int × String × String))
    (hf : conn.fetchKpis (kpiFetchQuery db ss sel) = Except.ok kpis)
    (hne : kpis ≠ [])
    (hmiss : (execOk (conn.run (trialQuery db ss)) &&
        execOk (conn.run (trialQuery db ts))) = false) :
    (validate_kpis conn db ss ts sel).rows =
      kpis.map (errorRow (missingMsg (execOk (conn.run (trialQuery db ss)))
        (execOk (conn.run (trialQuery db ts))))) ∧
    (validate_kpis conn db ss ts sel).executed =
      [kpiFetchQuery db ss sel, trialQuery db ss, trialQuery db ts] ∧
    (validate_kpis conn db ss ts sel).message =
      "❌ Validation failed - missing ORDER_DATA table" := by
  simp only [validate_kpis, hf]
  cases kpis with
  | nil => exact absurd rfl hne
  | cons k ks =>
    simp only [hmiss, Bool.false_eq_true, if_false]
    rw [foldl_append_singleton]
    simp

/-- Any result row is either a short-circuit error row or a per-KPI
evaluation. -/
theorem mem_rows_shape (conn : Conn) (db ss ts : String) (sel : List String)
    (row : KpiRow) (h : row ∈ (validate_kpis conn db ss ts sel).rows) :
    (∃ msg k, row = errorRow msg k) ∨
    (∃ k, row = evalKpi conn.run db ss ts k) := by
  rcases hq : conn.fetchKpis (kpiFetchQuery db ss sel) with e | kpis
  · simp only [validate_kpis, hq] at h
    exact absurd h (List.not_mem_nil row)
  cases kpis with
  | nil =>
    simp only [validate_kpis, hq] at h
    exact absurd h (List.not_mem_nil row)
  | cons k ks =>
    simp only [validate_kpis, hq] at h
    by_cases hcond : (execOk (conn.run (trialQuery db ss)) &&
        execOk (conn.run (trialQuery db ts))) = true
    · rw [if_pos hcond] at h
      simp only [foldl_append_singleton, List.nil_append, List.mem_map] at h
      obtain ⟨k0, _, rfl⟩ := h
      exact Or.inr ⟨k0, rfl⟩
    · rw [if_neg hcond] at h
      simp only [foldl_append_singleton, List.nil_append, List.mem_map] at h
      obtain ⟨k0, _, rfl⟩ := h
      exact Or.inl ⟨_, k0, rfl⟩

/-- Field computation for `evalKpi`. -/
theorem evalKpi_fields (run : String → Except String (Option Val))
    (db ss ts : String) (k : Int × String × String) :
    (evalKpi run db ss ts k).kpiId = k.1 ∧
    (evalKpi run db ss ts k).kpiName = k.2.1 ∧
    (evalKpi run db ss ts k).sourceValue =
      capture (run (substOrderData db ss k.2.2)) ∧
    (evalKpi run db ss ts k).cloneValue =
      capture (run (substOrderData db ts k.2.2)) := by
  exact ⟨rfl, rfl, rfl, rfl⟩

/-- The numeric branch of the comparison policy. -/
theorem compareVals_num (a b : ℚ) :
    compareVals (Val.num a) (Val.num b) =
      (some (a - b),
       if a ≠ 0 then Pct.val ((a - b) / a * 100) else Pct.inf,
       if a - b = 0 then Status.matched else Status.mismatch) := rfl

/-- The fallback branch of the comparison policy: when the two values are
not both numeric, the difference and percentage stay `N/A` and the status
is string equality of the Python `str(...)` forms. -/
theorem compareVals_not_num (s c : Val)
    (h : (s.isNum && c.isNum) = false) :
    compareVals s c =
      (none, Pct.na,
       if pyStr s = pyStr c then Status.matched else Status.mismatch) := by
  cases s <;> cases c <;> simp_all [compareVals, Val.isNum]

/-- C1.  For every KPI row whose two captured values are both numeric, the
computed difference is `source − clone`, the computed percentage is
`difference / source * 100` when the source value is nonzero and
`+infinity` when the source value is 0 and the difference is nonzero, and
the status is `Match` iff the difference is 0. -/
theorem kpi_numeric_policy_c1 (conn : Conn) (db ss ts : String)
    (sel : List String) (row : KpiRow) (a b : ℚ)
    (hmem : row ∈ (validate_kpis conn db ss ts sel).rows)
    (hsrc : row.sourceValue = Val.num a)
    (hclone : row.cloneValue = Val.num b) :
    row.difference = some (a - b) ∧
    (a ≠ 0 → row.diffPct = Pct.val ((a - b) / a * 100)) ∧
    (a = 0 → a - b ≠ 0 → row.diffPct = Pct.inf) ∧
    (row.status = Status.matched ↔ a - b = 0) := by
  rcases mem_rows_shape conn db ss ts sel row hmem with ⟨msg, k, rfl⟩ | ⟨k, rfl⟩
  · exact absurd hsrc (by simp [errorRow])
  · have hs : capture (conn.run (substOrderData db ss k.2.2)) = Val.num a := hsrc
    have hc : capture (conn.run (substOrderData db ts k.2.2)) = Val.num b := hclone
    have hrow : evalKpi conn.run db ss ts k =
        mkKpiRow k (Val.num a) (Val.num b) := by
      unfold evalKpi
      rw [hs, hc]
    rw [hrow]
    unfold mkKpiRow
    rw [compareVals_num]
    refine ⟨rfl, ?_, ?_, ?_⟩
    · intro ha
      simp [ha]
    · intro ha _
      simp [ha]
    · by_cases hd : a - b = 0
      · simp [hd]
      · simp [hd]

/-- Witness for C1: the zero-source edge case `source=0, clone=5` gives
percent `+infinity` and status `Mismatch`. -/
theorem kpi_numeric_policy_c1_witness :
    ∃ row ∈ (validate_kpis (numConn 0 5) "DB" "S1" "S2" ["K"]).rows,
      row.diffPct = Pct.inf ∧ row.status = Status.mismatch := by
  have hrows : (validate_kpis (numConn 0 5) "DB" "S1" "S2" ["K"]).rows =
      [mkKpiRow (1, "K", kpiSql0) (Val.num 0) (Val.num 5)] := rfl
  have hmem : mkKpiRow (1, "K", kpiSql0) (Val.num 0) (Val.num 5) ∈
      (validate_kpis (numConn 0 5) "DB" "S1" "S2" ["K"]).rows := by
    rw [hrows]
    exact List.mem_singleton_self _
  obtain ⟨-, -, h3, h4⟩ := kpi_numeric_policy_c1 (numConn 0 5) "DB" "S1" "S2"
    ["K"] _ 0 5 hmem rfl rfl
  refine ⟨_, hmem, h3 rfl (by norm_num), ?_⟩
  have hstat : (mkKpiRow (1, "K", kpiSql0) (Val.num 0) (Val.num 5)).status =
      if (0 : ℚ) - 5 = 0 then Status.matched else Status.mismatch := rfl
  rw [hstat, if_neg (by norm_num)]

/-- Field projections of a built KPI row. -/
theorem mkKpiRow_fields (k : Int × String × String) (s c : Val) :
    (mkKpiRow k s c).difference = (compareVals s c).1 ∧
    (mkKpiRow k s c).diffPct = (compareVals s c).2.1 ∧
    (mkKpiRow k s c).status = (compareVals s c).2.2 ∧
    (mkKpiRow k s c).sourceValue = s ∧ (mkKpiRow k s c).cloneValue = c :=
  ⟨rfl, rfl, rfl, rfl, rfl⟩

/-- C10.  When both captured values are numeric and the source value is 0
with difference 0 (source=0, clone=0), the percentage is `+infinity`
(displayed `"inf%"`) even though the status is `Match`: the infinity
fallback fires whenever the source value is 0, not only when the values
differ. -/
theorem kpi_zero_source_match_percent_c10 (conn : Conn) (db ss ts : String)
    (sel : List String) (row : KpiRow)
    (hmem : row ∈ (validate_kpis conn db ss ts sel).rows)
    (hsrc : row.sourceValue = Val.num 0)
    (hclone : row.cloneValue = Val.num 0) :
    row.diffPct = Pct.inf ∧ row.status = Status.matched ∧
      displayPct row.diffPct = "inf%" := by
  rcases mem_rows_shape conn db ss ts sel row hmem with ⟨msg, k, rfl⟩ | ⟨k, rfl⟩
  · exact absurd hsrc (by simp [errorRow])
  · have hs : capture (conn.run (substOrderData db ss k.2.2)) = Val.num 0 := hsrc
    have hc : capture (conn.run (substOrderData db ts k.2.2)) = Val.num 0 := hclone
    have hrow : evalKpi conn.run db ss ts k =
        mkKpiRow k (Val.num 0) (Val.num 0) := by
      unfold evalKpi
      rw [hs, hc]
    rw [hrow]
    unfold mkKpiRow
    rw [compareVals_num]
    refine ⟨by simp, by norm_num, ?_⟩
    have : (if (0 : ℚ) ≠ 0 then Pct.val ((0 - 0) / 0 * 100) else Pct.inf) =
        Pct.inf := by simp
    rw [this]
    rfl

/-- Witness for C10 at source=0, clone=0. -/
theorem kpi_zero_source_match_percent_c10_witness :
    ∃ row ∈ (validate_kpis (numConn 0 0) "DB" "S1" "S2" ["K"]).rows,
      row.diffPct = Pct.inf ∧ row.status = Status.matched ∧
        displayPct row.diffPct = "inf%" := by
  have hrows : (validate_kpis (numConn 0 0) "DB" "S1" "S2" ["K"]).rows =
      [mkKpiRow (1, "K", kpiSql0) (Val.num 0) (Val.num 0)] := rfl
  have hmem : mkKpiRow (1, "K", kpiSql0) (Val.num 0) (Val.num 0) ∈
      (validate_kpis (numConn 0 0) "DB" "S1" "S2" ["K"]).rows := by
    rw [hrows]
    exact List.mem_singleton_self _
  exact ⟨_, hmem, kpi_zero_source_match_percent_c10 (numConn 0 0) "DB" "S1"
    "S2" ["K"] _ hmem rfl rfl⟩

/-- C3.  If the trial probe shows `ORDER_DATA` absent from either schema
(any execution error counting as absent), every fetched KPI definition
yields an `Error` row whose two value cells carry a message naming which
side(s) lack the table (the message is
`"ORDER_DATA table missing in target schema"` — containing
`"target schema"` — when only the clone lacks it), and the only statements
executed are the KPI-definition fetch and the two trial probes: no KPI SQL
template is executed against either side. -/
theorem kpi_missing_table_c3 (conn : Conn) (db ss ts : String)
    (sel : List String) (kpis : List (Int × String × String))
    (hf : conn.fetchKpis (kpiFetchQuery db ss sel) = Except.ok kpis)
    (hne : kpis ≠ [])
    (hmiss : (execOk (conn.run (trialQuery db ss)) &&
        execOk (conn.run (trialQuery db ts))) = false) :
    (validate_kpis conn db ss ts sel).rows =
      kpis.map (errorRow (missingMsg (execOk (conn.run (trialQuery db ss)))
        (execOk (conn.run (trialQuery db ts))))) ∧
    (∀ row ∈ (validate_kpis conn db ss ts sel).rows,
        row.status = Status.error ∧
        row.sourceValue = Val.str ("ERROR: " ++
          missingMsg (execOk (conn.run (trialQuery db ss)))
            (execOk (conn.run (trialQuery db ts)))) ∧
        row.cloneValue = Val.str ("ERROR: " ++
          missingMsg (execOk (conn.run (trialQuery db ss)))
            (execOk (conn.run (trialQuery db ts))))) ∧
    (execOk (conn.run (trialQuery db ss)) = true →
      execOk (conn.run (trialQuery db ts)) = false →
      missingMsg (execOk (conn.run (trialQuery db ss)))
          (execOk (conn.run (trialQuery db ts))) =
        "ORDER_DATA table missing in " ++ "target schema") ∧
    (validate_kpis conn db ss ts sel).executed =
      [kpiFetchQuery db ss sel, trialQuery db ss, trialQuery db ts] ∧
    (validate_kpis conn db ss ts sel).message =
      "❌ Validation failed - missing ORDER_DATA table" := by
  obtain ⟨h1, h2, h3⟩ :=
    validate_kpis_shortcircuit conn db ss ts sel kpis hf hne hmiss
  refine ⟨h1, ?_, ?_, h2, h3⟩
  · intro row hr
    rw [h1] at hr
    simp only [List.mem_map] at hr
    obtain ⟨k, -, rfl⟩ := hr
    exact ⟨rfl, rfl, rfl⟩
  · intro hu hv
    rw [missingMsg, hu, hv]
    rfl

/-- Witness for C3: `ORDER_DATA` missing in the clone only. -/
theorem kpi_missing_table_c3_witness :
    (validate_kpis missConn "DB" "S1" "S2" ["K"]).executed =
      [kpiFetchQuery "DB" "S1" ["K"], trialQuery "DB" "S1",
        trialQuery "DB" "S2"] ∧
    (validate_kpis missConn "DB" "S1" "S2" ["K"]).rows.map KpiRow.status =
      [Status.error] ∧
    (validate_kpis missConn "DB" "S1" "S2" ["K"]).rows.map KpiRow.sourceValue =
      [Val.str ("ERROR: " ++ "ORDER_DATA table missing in target schema")] := by
  have h := kpi_missing_table_c3 missConn "DB" "S1" "S2" ["K"]
    [(1, "K", kpiSql0)] rfl (by simp) rfl
  refine ⟨h.2.2.2.1, ?_, ?_⟩
  · rw [h.1]
    rfl
  · rw [h.1]
    rfl

/-- C7.  Per-query failures are isolated: the result rows are exactly the
independent per-KPI evaluations (one row per fetched KPI, failures
included); each KPI's row depends only on the two statements of that KPI;
and an execution error on one side becomes the string-tagged value
`"QUERY_ERROR: <e>"` for that side only, leaving the other side's captured
value untouched. -/
theorem kpi_error_isolation_c7 (conn : Conn) (db ss ts : String)
    (sel : List String) (kpis : List (Int × String × String))
    (hf : conn.fetchKpis (kpiFetchQuery db ss sel) = Except.ok kpis)
    (hs : execOk (conn.run (trialQuery db ss)) = true)
    (ht : execOk (conn.run (trialQuery db ts)) = true) :
    ((validate_kpis conn db ss ts sel).rows =
        kpis.map (evalKpi conn.run db ss ts) ∧
      (validate_kpis conn db ss ts sel).rows.length = kpis.length) ∧
    (∀ (runA runB : String → Except String (Option Val))
        (k : Int × String × String),
        runA (substOrderData db ss k.2.2) = runB (substOrderData db ss k.2.2) →
        runA (substOrderData db ts k.2.2) = runB (substOrderData db ts k.2.2) →
        evalKpi runA db ss ts k = evalKpi runB db ss ts k) ∧
    (∀ (runA : String → Except String (Option Val))
        (k : Int × String × String) (e : String),
        runA (substOrderData db ss k.2.2) = Except.error e →
        (evalKpi runA db ss ts k).sourceValue =
          Val.str ("QUERY_ERROR: " ++ e) ∧
        (evalKpi runA db ss ts k).cloneValue =
          capture (runA (substOrderData db ts k.2.2))) ∧
    (∀ (runA : String → Except String (Option Val))
        (k : Int × String × String) (e : String),
        runA (substOrderData db ts k.2.2) = Except.error e →
        (evalKpi runA db ss ts k).cloneValue =
          Val.str ("QUERY_ERROR: " ++ e) ∧
        (evalKpi runA db ss ts k).sourceValue =
          capture (runA (substOrderData db ss k.2.2))) := by
  refine ⟨⟨validate_kpis_rows_ok conn db ss ts sel kpis hf hs ht, ?_⟩,
    ?_, ?_, ?_⟩
  · rw [validate_kpis_rows_ok conn db ss ts sel kpis hf hs ht,
      List.length_map]
  · intro runA runB k hA hB
    unfold evalKpi
    rw [hA, hB]
  · intro runA k e hA
    constructor
    · have : (evalKpi runA db ss ts k).sourceValue =
          capture (runA (substOrderData db ss k.2.2)) := rfl
      rw [this, hA]
      rfl
    · rfl
  · intro runA k e hA
    constructor
    · have : (evalKpi runA db ss ts k).cloneValue =
          capture (runA (substOrderData db ts k.2.2)) := rfl
      rw [this, hA]
      rfl
    · rfl

/-- Witness for C7: the source side of the one KPI errors; the error is
captured in the source cell and the clone cell still carries the clone
query's value. -/
theorem kpi_error_isolation_c7_witness :
    (evalKpi errSideConn.run "DB" "S1" "S2" (1, "K", kpiSql0)).sourceValue =
      Val.str ("QUERY_ERROR: " ++ "division by zero") ∧
    (evalKpi errSideConn.run "DB" "S1" "S2" (1, "K", kpiSql0)).cloneValue =
      Val.num 7 := by
  have h := (kpi_error_isolation_c7 errSideConn "DB" "S1" "S2" ["K"]
      [(1, "K", kpiSql0)] rfl rfl rfl).2.2.1
    errSideConn.run (1, "K", kpiSql0) "division by zero" rfl
  exact ⟨h.1, by rw [h.2]; rfl⟩

/-- C8 counterexample: with a KPI-definition fetch that returns its rows
out of the caller's selection order — `SELECT ... WHERE KPI_NAME IN (...)`
has no `ORDER BY`, so the database may do so — the output rows follow the
fetch order `["B", "A"]`, not the caller's selection order `["A", "B"]`. -/
theorem kpi_selection_order_c8_counterexample :
    (validate_kpis outOfOrderConn "DB" "S1" "S2" ["A", "B"]).rows.map
        KpiRow.kpiName = ["B", "A"] ∧
    (validate_kpis outOfOrderConn "DB" "S1" "S2" ["A", "B"]).rows.map
        KpiRow.kpiName ≠ ["A", "B"] := by
  have hmap : (validate_kpis outOfOrderConn "DB" "S1" "S2" ["A", "B"]).rows.map
      KpiRow.kpiName = ["B", "A"] := rfl
  exact ⟨hmap, by rw [hmap]; decide⟩

/-- C8 (amended).  The result rows preserve the order of the KPI
definition rows returned by the `ORDER_KPIS` fetch, in every path
(normal and short-circuit); the caller's selection order is preserved
exactly when the fetch returns the definitions in that order. -/
theorem kpi_fetch_order_preserved_c8 (conn : Conn) (db ss ts : String)
    (sel : List String) (kpis : List (Int × String × String))
    (hf : conn.fetchKpis (kpiFetchQuery db ss sel) = Except.ok kpis) :
    (validate_kpis conn db ss ts sel).rows.map
        (fun r => (r.kpiId, r.kpiName)) =
      kpis.map (fun k => (k.1, k.2.1)) := by
  cases kpis with
  | nil =>
    simp only [validate_kpis, hf]
    rfl
  | cons k ks =>
    simp only [validate_kpis, hf]
    by_cases hcond : (execOk (conn.run (trialQuery db ss)) &&
        execOk (conn.run (trialQuery db ts))) = true
    · rw [if_pos hcond]
      simp only [foldl_append_singleton, List.nil_append, List.map_map]
      rfl
    · rw [if_neg hcond]
      simp only [foldl_append_singleton, List.nil_append, List.map_map]
      rfl

/-- Witness for the amended C8 at the out-of-order fetch. -/
theorem kpi_fetch_order_preserved_c8_witness :
    (validate_kpis outOfOrderConn "DB" "S1" "S2" ["A", "B"]).rows.map
        (fun r => (r.kpiId, r.kpiName)) = [((2 : Int), "B"), ((1 : Int), "A")] := by
  have h := kpi_fetch_order_preserved_c8 outOfOrderConn "DB" "S1" "S2"
    ["A", "B"] [(2, "B", kpiSql0), (1, "A", kpiSql0)] rfl
  rw [h]
  rfl

/-- C9.  A side whose query returns zero rows captures `null` (not an
error); when the two captured values are not both numeric the difference
and percentage stay `N/A` and the status is `Match` exactly when the
Python string forms of the two values are equal (so `null` on both sides
gives `Match`), `Mismatch` otherwise. -/
theorem kpi_fallback_policy_c9 (conn : Conn) (db ss ts : String)
    (sel : List String) (kpis : List (Int × String × String))
    (hf : conn.fetchKpis (kpiFetchQuery db ss sel) = Except.ok kpis)
    (hs : execOk (conn.run (trialQuery db ss)) = true)
    (ht : execOk (conn.run (trialQuery db ts)) = true) :
    (validate_kpis conn db ss ts sel).rows =
      kpis.map (evalKpi conn.run db ss ts) ∧
    (∀ k : Int × String × String,
      conn.run (substOrderData db ss k.2.2) = Except.ok none →
      (evalKpi conn.run db ss ts k).sourceValue = Val.null) ∧
    (∀ k : Int × String × String,
      conn.run (substOrderData db ts k.2.2) = Except.ok none →
      (evalKpi conn.run db ss ts k).cloneValue = Val.null) ∧
    (∀ row ∈ (validate_kpis conn db ss ts sel).rows,
      (row.sourceValue.isNum && row.cloneValue.isNum) = false →
      row.difference = none ∧ row.diffPct = Pct.na ∧
      row.status = (if pyStr row.sourceValue = pyStr row.cloneValue
        then Status.matched else Status.mismatch)) ∧
    (∀ row ∈ (validate_kpis conn db ss ts sel).rows,
      row.sourceValue = Val.null → row.cloneValue = Val.null →
      row.status = Status.matched) := by
  have hrows := validate_kpis_rows_ok conn db ss ts sel kpis hf hs ht
  have hfall : ∀ row ∈ (validate_kpis conn db ss ts sel).rows,
      (row.sourceValue.isNum && row.cloneValue.isNum) = false →
      row.difference = none ∧ row.diffPct = Pct.na ∧
      row.status = (if pyStr row.sourceValue = pyStr row.cloneValue
        then Status.matched else Status.mismatch) := by
    intro row hr hnum
    rw [hrows] at hr
    simp only [List.mem_map] at hr
    obtain ⟨k, -, rfl⟩ := hr
    have he : evalKpi conn.run db ss ts k =
        mkKpiRow k (capture (conn.run (substOrderData db ss k.2.2)))
          (capture (conn.run (substOrderData db ts k.2.2))) := rfl
    rw [he] at hnum ⊢
    rw [(mkKpiRow_fields k _ _).2.2.2.1, (mkKpiRow_fields k _ _).2.2.2.2]
      at hnum ⊢
    have hcv := compareVals_not_num _ _ hnum
    exact ⟨by rw [(mkKpiRow_fields k _ _).1, hcv],
      by rw [(mkKpiRow_fields k _ _).2.1, hcv],
      by rw [(mkKpiRow_fields k _ _).2.2.1, hcv]⟩
  refine ⟨hrows, ?_, ?_, hfall, ?_⟩
  · intro k h
    have : (evalKpi conn.run db ss ts k).sourceValue =
        capture (conn.run (substOrderData db ss k.2.2)) := rfl
    rw [this, h]
    rfl
  · intro k h
    have : (evalKpi conn.run db ss ts k).cloneValue =
        capture (conn.run (substOrderData db ts k.2.2)) := rfl
    rw [this, h]
    rfl
  · intro row hr h0 h1
    obtain ⟨-, -, hst⟩ := hfall row hr (by rw [h0, h1]; rfl)
    rw [hst, h0, h1]
    rfl

/-- Witness for C9: both sides return zero rows; the row is `null`/`null`
with status `Match`. -/
theorem kpi_fallback_policy_c9_witness :
    ∃ row ∈ (validate_kpis nullConn "DB" "S1" "S2" ["K"]).rows,
      row.sourceValue = Val.null ∧ row.cloneValue = Val.null ∧
        row.status = Status.matched := by
  have h := kpi_fallback_policy_c9 nullConn "DB" "S1" "S2" ["K"]
    [(1, "K", kpiSql0)] rfl rfl rfl
  have hrows : (validate_kpis nullConn "DB" "S1" "S2" ["K"]).rows =
      [mkKpiRow (1, "K", kpiSql0) Val.null Val.null] := rfl
  have hmem : mkKpiRow (1, "K", kpiSql0) Val.null Val.null ∈
      (validate_kpis nullConn "DB" "S1" "S2" ["K"]).rows := by
    rw [hrows]
    exact List.mem_singleton_self _
  exact ⟨_, hmem, rfl, rfl, h.2.2.2.2 _ hmem rfl rfl⟩

end Svat
